import Mathlib

/-!
Elevator FSM: a verification development

A shallow embedding of `elevator-fsm.hpp` / `elevator-fsm.cpp` (the State-pattern
Moore machine controlling one elevator car) and theorems about it.

Modelling conventions.

* A `State` singleton object is represented by its tag; a virtual call on
  `state_` is a `match` on the tag, with the base-class body as the default.
* The four ports are mocks: every `void` call the engine makes on a port is
  appended to `calls`, oldest first.  The two `const` queries of the drive port
  (`getFloor`, `isAtFloor`) are inputs, supplied as an `ElevatorDriveApi` record.
* Floors and durations are `size_t` in the source; the engine only stores,
  compares and forwards them, so they are `Nat` here.
-/

namespace Elevator

/-! ## Constants (`ElevatorFsm::Floors`, `ElevatorFsm::Timers`) -/

def GROUND_FLOOR : Nat := 1

def TIMEOUT_DOOR_OPEN_MSEC : Nat := 5000
def TIMEOUT_DOOR_CLOSE_MSEC : Nat := 7000
def TIMEOUT_MOVE_TO_FLOOR_MSEC : Nat := 60000
def TIMER_WAITING_MSEC : Nat := 10000

/-! ## Ports -/

/-- One `void` call on one of the four API objects (`ui_`, `door_`, `drive_`, `timer_`). -/
inductive Call where
  | ui_arrived (floor : Nat)
  | ui_inService
  | ui_outOfService
  | ui_alarmOn
  | ui_alarmOff
  | door_open
  | door_close
  | drive_goToFloor (floor : Nat)
  | drive_stop
  | drive_start
  | timer_start (msec : Nat)
  | timer_stop
  deriving DecidableEq, Repr

/-- The answers of the drive port's two queries at the time of a call. -/
structure ElevatorDriveApi where
  getFloor : Nat
  isAtFloor : Bool
  deriving DecidableEq, Repr

/-! ## Engine data -/

/-- The nine `ElevatorFsm::State` subclasses (each a singleton). -/
inductive State where
  | Stopped
  | Moving
  | Holding
  | Resuming
  | Opening
  | Waiting
  | Closing
  | OutOfService
  | Restoring
  deriving DecidableEq, Repr

/-- The data members of `class ElevatorFsm`, with the record of port calls. -/
structure ElevatorFsm where
  state_ : State
  currentFloor_ : Nat
  destinationFloor_ : Nat
  calls : List Call
  deriving DecidableEq, Repr

/-- Perform one `void` port call. -/
@[simp]
def ElevatorFsm.call (fsm : ElevatorFsm) (c : Call) : ElevatorFsm :=
  { fsm with calls := fsm.calls ++ [c] }

/-! ## Entry actions -/

/-- Method `ElevatorFsm::Stopped::enter`. -/
@[simp]
def Stopped.enter (fsm : ElevatorFsm) : Bool × ElevatorFsm :=
  (true, fsm)

/-- Method `ElevatorFsm::Moving::enter`. -/
@[simp]
def Moving.enter (fsm : ElevatorFsm) : Bool × ElevatorFsm :=
  let fsm := fsm.call (.drive_goToFloor fsm.destinationFloor_)
  let fsm := fsm.call (.timer_start TIMEOUT_MOVE_TO_FLOOR_MSEC)
  (true, fsm)

/-- Method `ElevatorFsm::Holding::enter`. -/
@[simp]
def Holding.enter (fsm : ElevatorFsm) : Bool × ElevatorFsm :=
  let fsm := fsm.call .drive_stop
  let fsm := fsm.call .ui_alarmOn
  (true, fsm)

/-- Method `ElevatorFsm::Resuming::enter`. -/
@[simp]
def Resuming.enter (fsm : ElevatorFsm) : Bool × ElevatorFsm :=
  let fsm := fsm.call .drive_start
  let fsm := fsm.call .ui_alarmOff
  (true, fsm)

/-- Method `ElevatorFsm::Opening::enter`. -/
@[simp]
def Opening.enter (fsm : ElevatorFsm) : Bool × ElevatorFsm :=
  let fsm := fsm.call (.ui_arrived fsm.destinationFloor_)
  let fsm := fsm.call .door_open
  let fsm := fsm.call (.timer_start TIMEOUT_DOOR_OPEN_MSEC)
  (true, fsm)

/-- Method `ElevatorFsm::Waiting::enter`. -/
@[simp]
def Waiting.enter (fsm : ElevatorFsm) : Bool × ElevatorFsm :=
  let fsm := fsm.call (.timer_start TIMER_WAITING_MSEC)
  (true, fsm)

/-- Method `ElevatorFsm::Closing::enter`. -/
@[simp]
def Closing.enter (fsm : ElevatorFsm) : Bool × ElevatorFsm :=
  let fsm := fsm.call .door_close
  let fsm := fsm.call (.timer_start TIMEOUT_DOOR_CLOSE_MSEC)
  (true, fsm)

/-- Method `ElevatorFsm::OutOfService::enter`. -/
@[simp]
def OutOfService.enter (fsm : ElevatorFsm) : Bool × ElevatorFsm :=
  let fsm := fsm.call .ui_outOfService
  (true, fsm)

/-- Method `ElevatorFsm::Restoring::enter`.  Its two `changeState` calls name their
destination statically, so each is written out as the assignment to `state_`
followed by that destination's `enter` (see `Restoring.enter_eq_changeState`). -/
@[simp]
def Restoring.enter (drive : ElevatorDriveApi) (fsm : ElevatorFsm) : Bool × ElevatorFsm :=
  let fsm := { fsm with currentFloor_ := drive.getFloor }
  let fsm := { fsm with destinationFloor_ := GROUND_FLOOR }
  let fsm := fsm.call .ui_inService
  if drive.isAtFloor && (fsm.currentFloor_ == fsm.destinationFloor_) then
    Opening.enter { fsm with state_ := .Opening }
  else
    Moving.enter { fsm with state_ := .Moving }

/-- The virtual call `state->enter(fsm)`. -/
@[simp]
def State.enter (s : State) (drive : ElevatorDriveApi) (fsm : ElevatorFsm) :
    Bool × ElevatorFsm :=
  match s with
  | .Stopped => Stopped.enter fsm
  | .Moving => Moving.enter fsm
  | .Holding => Holding.enter fsm
  | .Resuming => Resuming.enter fsm
  | .Opening => Opening.enter fsm
  | .Waiting => Waiting.enter fsm
  | .Closing => Closing.enter fsm
  | .OutOfService => OutOfService.enter fsm
  | .Restoring => Restoring.enter drive fsm

/-- Method `ElevatorFsm::State::changeState`. -/
@[simp]
def State.changeState (drive : ElevatorDriveApi) (fsm : ElevatorFsm) (newState : State) :
    Bool × ElevatorFsm :=
  let fsm := { fsm with state_ := newState }
  fsm.state_.enter drive fsm

/-! ## Event handlers of the states -/

/-- Method `ElevatorFsm::Stopped::onFloorRequest`. -/
@[simp]
def Stopped.onFloorRequest (drive : ElevatorDriveApi) (fsm : ElevatorFsm) :
    Bool × ElevatorFsm :=
  if fsm.currentFloor_ == fsm.destinationFloor_ then
    State.changeState drive fsm .Opening
  else
    State.changeState drive fsm .Moving

/-- Method `ElevatorFsm::Stopped::onOpenButton`. -/
@[simp]
def Stopped.onOpenButton (drive : ElevatorDriveApi) (fsm : ElevatorFsm) :
    Bool × ElevatorFsm :=
  State.changeState drive fsm .Opening

/-- Method `ElevatorFsm::Moving::onArrived`. -/
@[simp]
def Moving.onArrived (drive : ElevatorDriveApi) (fsm : ElevatorFsm) : Bool × ElevatorFsm :=
  State.changeState drive fsm .Opening

/-- Method `ElevatorFsm::Moving::onStopButton`. -/
@[simp]
def Moving.onStopButton (drive : ElevatorDriveApi) (fsm : ElevatorFsm) :
    Bool × ElevatorFsm :=
  State.changeState drive fsm .Holding

/-- Method `ElevatorFsm::Moving::onFault`. -/
@[simp]
def Moving.onFault (drive : ElevatorDriveApi) (fsm : ElevatorFsm) : Bool × ElevatorFsm :=
  State.changeState drive fsm .OutOfService

/-- Method `ElevatorFsm::Moving::onTimer`. -/
@[simp]
def Moving.onTimer (drive : ElevatorDriveApi) (fsm : ElevatorFsm) : Bool × ElevatorFsm :=
  State.changeState drive fsm .OutOfService

/-- Method `ElevatorFsm::Holding::onStopButton`. -/
@[simp]
def Holding.onStopButton (drive : ElevatorDriveApi) (fsm : ElevatorFsm) :
    Bool × ElevatorFsm :=
  State.changeState drive fsm .Resuming

/-- Method `ElevatorFsm::Opening::onDoorsOpened`. -/
@[simp]
def Opening.onDoorsOpened (drive : ElevatorDriveApi) (fsm : ElevatorFsm) :
    Bool × ElevatorFsm :=
  State.changeState drive fsm .Waiting

/-- Method `ElevatorFsm::Opening::onFault`. -/
@[simp]
def Opening.onFault (drive : ElevatorDriveApi) (fsm : ElevatorFsm) : Bool × ElevatorFsm :=
  State.changeState drive fsm .OutOfService

/-- Method `ElevatorFsm::Opening::onTimer`. -/
@[simp]
def Opening.onTimer (drive : ElevatorDriveApi) (fsm : ElevatorFsm) : Bool × ElevatorFsm :=
  State.changeState drive fsm .OutOfService

/-- Method `ElevatorFsm::Waiting::onOpenButton`. -/
@[simp]
def Waiting.onOpenButton (drive : ElevatorDriveApi) (fsm : ElevatorFsm) :
    Bool × ElevatorFsm :=
  State.changeState drive fsm .Waiting

/-- Method `ElevatorFsm::Waiting::onCloseButton`. -/
@[simp]
def Waiting.onCloseButton (drive : ElevatorDriveApi) (fsm : ElevatorFsm) :
    Bool × ElevatorFsm :=
  State.changeState drive fsm .Closing

/-- Method `ElevatorFsm::Waiting::onTimer`. -/
@[simp]
def Waiting.onTimer (drive : ElevatorDriveApi) (fsm : ElevatorFsm) : Bool × ElevatorFsm :=
  State.changeState drive fsm .Closing

/-- Method `ElevatorFsm::Closing::onDoorsClosed`. -/
@[simp]
def Closing.onDoorsClosed (drive : ElevatorDriveApi) (fsm : ElevatorFsm) :
    Bool × ElevatorFsm :=
  State.changeState drive fsm .Stopped

/-- Method `ElevatorFsm::Closing::onFault`. -/
@[simp]
def Closing.onFault (drive : ElevatorDriveApi) (fsm : ElevatorFsm) : Bool × ElevatorFsm :=
  State.changeState drive fsm .OutOfService

/-- Method `ElevatorFsm::Closing::onTimer`. -/
@[simp]
def Closing.onTimer (drive : ElevatorDriveApi) (fsm : ElevatorFsm) : Bool × ElevatorFsm :=
  State.changeState drive fsm .OutOfService

/-- Method `ElevatorFsm::OutOfService::onRestoreService`. -/
@[simp]
def OutOfService.onRestoreService (drive : ElevatorDriveApi) (fsm : ElevatorFsm) :
    Bool × ElevatorFsm :=
  State.changeState drive fsm .Restoring

/-! ## Virtual dispatch (`class State` defaults return `false`) -/

/-- The virtual call `state_->onFloorRequest(this)`. -/
@[simp]
def State.onFloorRequest (s : State) (drive : ElevatorDriveApi) (fsm : ElevatorFsm) :
    Bool × ElevatorFsm :=
  match s with
  | .Stopped => Stopped.onFloorRequest drive fsm
  | _ => (false, fsm)

/-- The virtual call `state_->onDoorsOpened(this)`. -/
@[simp]
def State.onDoorsOpened (s : State) (drive : ElevatorDriveApi) (fsm : ElevatorFsm) :
    Bool × ElevatorFsm :=
  match s with
  | .Opening => Opening.onDoorsOpened drive fsm
  | _ => (false, fsm)

/-- The virtual call `state_->onDoorsClosed(this)`. -/
@[simp]
def State.onDoorsClosed (s : State) (drive : ElevatorDriveApi) (fsm : ElevatorFsm) :
    Bool × ElevatorFsm :=
  match s with
  | .Closing => Closing.onDoorsClosed drive fsm
  | _ => (false, fsm)

/-- The virtual call `state_->onOpenButton(this)`. -/
@[simp]
def State.onOpenButton (s : State) (drive : ElevatorDriveApi) (fsm : ElevatorFsm) :
    Bool × ElevatorFsm :=
  match s with
  | .Stopped => Stopped.onOpenButton drive fsm
  | .Waiting => Waiting.onOpenButton drive fsm
  | _ => (false, fsm)

/-- The virtual call `state_->onCloseButton(this)`. -/
@[simp]
def State.onCloseButton (s : State) (drive : ElevatorDriveApi) (fsm : ElevatorFsm) :
    Bool × ElevatorFsm :=
  match s with
  | .Waiting => Waiting.onCloseButton drive fsm
  | _ => (false, fsm)

/-- The virtual call `state_->onStopButton(this)`. -/
@[simp]
def State.onStopButton (s : State) (drive : ElevatorDriveApi) (fsm : ElevatorFsm) :
    Bool × ElevatorFsm :=
  match s with
  | .Moving => Moving.onStopButton drive fsm
  | .Holding => Holding.onStopButton drive fsm
  | _ => (false, fsm)

/-- The virtual call `state_->onRestoreService(this)`. -/
@[simp]
def State.onRestoreService (s : State) (drive : ElevatorDriveApi) (fsm : ElevatorFsm) :
    Bool × ElevatorFsm :=
  match s with
  | .OutOfService => OutOfService.onRestoreService drive fsm
  | _ => (false, fsm)

/-- The virtual call `state_->onFault(this)`. -/
@[simp]
def State.onFault (s : State) (drive : ElevatorDriveApi) (fsm : ElevatorFsm) :
    Bool × ElevatorFsm :=
  match s with
  | .Moving => Moving.onFault drive fsm
  | .Opening => Opening.onFault drive fsm
  | .Closing => Closing.onFault drive fsm
  | _ => (false, fsm)

/-- The virtual call `state_->onArrived(this)`. -/
@[simp]
def State.onArrived (s : State) (drive : ElevatorDriveApi) (fsm : ElevatorFsm) :
    Bool × ElevatorFsm :=
  match s with
  | .Moving => Moving.onArrived drive fsm
  | _ => (false, fsm)

/-- The virtual call `state_->onTimer(this)`. -/
@[simp]
def State.onTimer (s : State) (drive : ElevatorDriveApi) (fsm : ElevatorFsm) :
    Bool × ElevatorFsm :=
  match s with
  | .Moving => Moving.onTimer drive fsm
  | .Opening => Opening.onTimer drive fsm
  | .Waiting => Waiting.onTimer drive fsm
  | .Closing => Closing.onTimer drive fsm
  | _ => (false, fsm)

/-! ## `class ElevatorFsm`: private delegation, public operations -/

@[simp]
def ElevatorFsm.onFloorRequest (fsm : ElevatorFsm) (drive : ElevatorDriveApi) :=
  fsm.state_.onFloorRequest drive fsm
@[simp]
def ElevatorFsm.onDoorsOpened (fsm : ElevatorFsm) (drive : ElevatorDriveApi) :=
  fsm.state_.onDoorsOpened drive fsm
@[simp]
def ElevatorFsm.onDoorsClosed (fsm : ElevatorFsm) (drive : ElevatorDriveApi) :=
  fsm.state_.onDoorsClosed drive fsm
@[simp]
def ElevatorFsm.onOpenButton (fsm : ElevatorFsm) (drive : ElevatorDriveApi) :=
  fsm.state_.onOpenButton drive fsm
@[simp]
def ElevatorFsm.onCloseButton (fsm : ElevatorFsm) (drive : ElevatorDriveApi) :=
  fsm.state_.onCloseButton drive fsm
@[simp]
def ElevatorFsm.onStopButton (fsm : ElevatorFsm) (drive : ElevatorDriveApi) :=
  fsm.state_.onStopButton drive fsm
@[simp]
def ElevatorFsm.onRestoreService (fsm : ElevatorFsm) (drive : ElevatorDriveApi) :=
  fsm.state_.onRestoreService drive fsm
@[simp]
def ElevatorFsm.onFault (fsm : ElevatorFsm) (drive : ElevatorDriveApi) :=
  fsm.state_.onFault drive fsm
@[simp]
def ElevatorFsm.onArrived (fsm : ElevatorFsm) (drive : ElevatorDriveApi) :=
  fsm.state_.onArrived drive fsm
@[simp]
def ElevatorFsm.onTimer (fsm : ElevatorFsm) (drive : ElevatorDriveApi) :=
  fsm.state_.onTimer drive fsm

/-- Method `ElevatorFsm::handleFloorRequest`: store the floor, then dispatch. -/
@[simp]
def ElevatorFsm.handleFloorRequest (fsm : ElevatorFsm) (drive : ElevatorDriveApi)
    (floor : Nat) : Bool × ElevatorFsm :=
  let fsm := { fsm with destinationFloor_ := floor }
  fsm.onFloorRequest drive

@[simp]
def ElevatorFsm.handleOpenButton (fsm : ElevatorFsm) (drive : ElevatorDriveApi) :=
  fsm.onOpenButton drive
@[simp]
def ElevatorFsm.handleCloseButton (fsm : ElevatorFsm) (drive : ElevatorDriveApi) :=
  fsm.onCloseButton drive
@[simp]
def ElevatorFsm.handleStopButton (fsm : ElevatorFsm) (drive : ElevatorDriveApi) :=
  fsm.onStopButton drive
@[simp]
def ElevatorFsm.handleRestoreService (fsm : ElevatorFsm) (drive : ElevatorDriveApi) :=
  fsm.onRestoreService drive
@[simp]
def ElevatorFsm.handleOpened (fsm : ElevatorFsm) (drive : ElevatorDriveApi) :=
  fsm.onDoorsOpened drive
@[simp]
def ElevatorFsm.handleClosed (fsm : ElevatorFsm) (drive : ElevatorDriveApi) :=
  fsm.onDoorsClosed drive
@[simp]
def ElevatorFsm.handleDoorFault (fsm : ElevatorFsm) (drive : ElevatorDriveApi) :=
  fsm.onFault drive
@[simp]
def ElevatorFsm.handleArrived (fsm : ElevatorFsm) (drive : ElevatorDriveApi) :=
  fsm.onArrived drive
@[simp]
def ElevatorFsm.handleDriveFault (fsm : ElevatorFsm) (drive : ElevatorDriveApi) :=
  fsm.onFault drive
@[simp]
def ElevatorFsm.handleExpired (fsm : ElevatorFsm) (drive : ElevatorDriveApi) :=
  fsm.onTimer drive

/-- Method `ElevatorFsm::isInService`. -/
@[simp]
def ElevatorFsm.isInService (fsm : ElevatorFsm) : Bool :=
  fsm.state_ != .OutOfService

/-- Method `ElevatorFsm::isIdle`. -/
@[simp]
def ElevatorFsm.isIdle (fsm : ElevatorFsm) : Bool :=
  fsm.state_ == .Stopped

/-- Method `ElevatorFsm::isWaiting`. -/
@[simp]
def ElevatorFsm.isWaiting (fsm : ElevatorFsm) : Bool :=
  fsm.state_ == .Waiting

/-- The constructor `ElevatorFsm::ElevatorFsm`, on ports that have received no call
(a structure cannot have a member of its own name, hence `new`). -/
def ElevatorFsm.new : ElevatorFsm :=
  let fsm : ElevatorFsm :=
    { state_ := .Stopped
      currentFloor_ := GROUND_FLOOR
      destinationFloor_ := GROUND_FLOOR
      calls := [] }
  fsm.call .ui_inService

/-! ## Events and event sequences -/

/-- The eleven public event operations (`handle*`) as values. -/
inductive Event where
  | floorRequest (floor : Nat)
  | openButton
  | closeButton
  | stopButton
  | restoreService
  | opened
  | closed
  | doorFault
  | arrived
  | driveFault
  | expired
  deriving DecidableEq, Repr

/-- Invoke the public operation named by an event. -/
def ElevatorFsm.handle (fsm : ElevatorFsm) (drive : ElevatorDriveApi) :
    Event → Bool × ElevatorFsm
  | .floorRequest floor => fsm.handleFloorRequest drive floor
  | .openButton => fsm.handleOpenButton drive
  | .closeButton => fsm.handleCloseButton drive
  | .stopButton => fsm.handleStopButton drive
  | .restoreService => fsm.handleRestoreService drive
  | .opened => fsm.handleOpened drive
  | .closed => fsm.handleClosed drive
  | .doorFault => fsm.handleDoorFault drive
  | .arrived => fsm.handleArrived drive
  | .driveFault => fsm.handleDriveFault drive
  | .expired => fsm.handleExpired drive

/-- Deliver a sequence of events, each with the drive answers current at that
time; the result is the engine after the last one. -/
def ElevatorFsm.run (fsm : ElevatorFsm) : List (ElevatorDriveApi × Event) → ElevatorFsm
  | [] => fsm
  | (drive, e) :: rest => ((fsm.handle drive e).2).run rest

/-- The values returned by the operations of a sequence, in order. -/
def ElevatorFsm.returns (fsm : ElevatorFsm) : List (ElevatorDriveApi × Event) → List Bool
  | [] => []
  | (drive, e) :: rest => (fsm.handle drive e).1 :: ((fsm.handle drive e).2).returns rest

/-! ## The specification's tables

These two definitions follow the words of the specification, not the source;
the theorems below compare the source's behaviour with them. -/

/-- The transition table as the specification lists it: the destinations named
for a state and an event, empty when the pair is not listed. -/
def listedDestinations : State → Event → List State
  | .Stopped, .floorRequest _ => [.Opening, .Moving]
  | .Stopped, .openButton => [.Opening]
  | .Moving, .arrived => [.Opening]
  | .Moving, .stopButton => [.Holding]
  | .Moving, .doorFault => [.OutOfService]
  | .Moving, .driveFault => [.OutOfService]
  | .Moving, .expired => [.OutOfService]
  | .Holding, .stopButton => [.Resuming]
  | .Opening, .opened => [.Waiting]
  | .Opening, .doorFault => [.OutOfService]
  | .Opening, .driveFault => [.OutOfService]
  | .Opening, .expired => [.OutOfService]
  | .Waiting, .openButton => [.Waiting]
  | .Waiting, .closeButton => [.Closing]
  | .Waiting, .expired => [.Closing]
  | .Closing, .closed => [.Stopped]
  | .Closing, .doorFault => [.OutOfService]
  | .Closing, .driveFault => [.OutOfService]
  | .Closing, .expired => [.OutOfService]
  | .OutOfService, .restoreService => [.Opening, .Moving]
  | _, _ => []

/-- The entry action the specification attributes to each state, as the list of
port commands it issues, given the destination floor at entry.  Restoring is
left out: the specification describes it through its onward transition. -/
def entryActionSpec (s : State) (destination : Nat) : List Call :=
  match s with
  | .Stopped => []
  | .Moving => [.drive_goToFloor destination, .timer_start 60000]
  | .Holding => [.drive_stop, .ui_alarmOn]
  | .Resuming => [.drive_start, .ui_alarmOff]
  | .Opening => [.ui_arrived destination, .door_open, .timer_start 5000]
  | .Waiting => [.timer_start 10000]
  | .Closing => [.door_close, .timer_start 7000]
  | .OutOfService => [.ui_outOfService]
  | .Restoring => []

/-! ## Histories -/

/-- One entry of an engine's history: an event operation with the value it
returned, or a `void` port call. -/
inductive Entry where
  | event (e : Event) (accepted : Bool)
  | call (c : Call)
  deriving DecidableEq, Repr

/-- Deliver a sequence of events while keeping a history: each operation is
entered with the value it returned, followed by the port calls made during it
(the calls the operation appended to the record). -/
def ElevatorFsm.trace (fsm : ElevatorFsm) (history : List Entry) :
    List (ElevatorDriveApi × Event) → ElevatorFsm × List Entry
  | [] => (fsm, history)
  | (drive, e) :: rest =>
    (fsm.handle drive e).2.trace
      (history ++ Entry.event e (fsm.handle drive e).1 ::
        ((fsm.handle drive e).2.calls.drop fsm.calls.length).map Entry.call) rest

/-- The history of a freshly constructed engine after a sequence of events; it
begins with the calls made by the constructor. -/
def ElevatorFsm.history (seq : List (ElevatorDriveApi × Event)) : List Entry :=
  (ElevatorFsm.new.trace (ElevatorFsm.new.calls.map Entry.call) seq).2

/-- The duration carried by the most recent `timer_.start` among the calls. -/
def lastTimerStart (calls : List Call) : Option Nat :=
  calls.foldl
    (fun last c =>
      match c with
      | .timer_start msec => some msec
      | _ => last)
    none

/-- The part of a history that follows the most recent `door_.open()`; the whole
history when the door was never commanded to open. -/
def sinceLastDoorOpen (history : List Entry) : List Entry :=
  history.foldl
    (fun since x => if x = Entry.call .door_open then [] else since ++ [x])
    []

/-- The timeout constant the specification assigns to each timed state. -/
def stateTimeoutSpec : State → Option Nat
  | .Moving => some 60000
  | .Opening => some 5000
  | .Waiting => some 10000
  | .Closing => some 7000
  | _ => none

/-- What occupancy of a state says about the door, read off the history: in
Stopped the door was never commanded to open or doors-closed was accepted since
the last door.open(); in Opening a door.open() was issued and no door.close()
since; in Waiting, moreover, doors-opened was accepted since. -/
def doorHistoryInvariant (fsm : ElevatorFsm) (history : List Entry) : Prop :=
  match fsm.state_ with
  | .Stopped =>
    Entry.call .door_open ∉ history ∨
      Entry.event .closed true ∈ sinceLastDoorOpen history
  | .Opening =>
    Entry.call .door_open ∈ history ∧
      Entry.call .door_close ∉ sinceLastDoorOpen history
  | .Waiting =>
    Entry.call .door_open ∈ history ∧
      Entry.event .opened true ∈ sinceLastDoorOpen history ∧
      Entry.call .door_close ∉ sinceLastDoorOpen history
  | _ => True

/-- An input all of whose floor values are positive: the drive's `getFloor()`
answer and, for a floor request, the floor requested. -/
def positiveFloors (x : ElevatorDriveApi × Event) : Bool :=
  decide (1 ≤ x.1.getFloor) &&
    match x.2 with
    | .floorRequest floor => decide (1 ≤ floor)
    | _ => true

/-- The most recent call satisfying `p` among the calls. -/
def lastCallOf (p : Call → Bool) (calls : List Call) : Option Call :=
  calls.foldl (fun last c => if p c then some c else last) none

/-- The two service indications of the UI port. -/
def isServiceIndication : Call → Bool
  | .ui_inService => true
  | .ui_outOfService => true
  | _ => false

/-- The two alarm commands of the UI port. -/
def isAlarmCommand : Call → Bool
  | .ui_alarmOn => true
  | .ui_alarmOff => true
  | _ => false

/-- The stop and start commands of the drive port. -/
def isDriveHoldCommand : Call → Bool
  | .drive_stop => true
  | .drive_start => true
  | _ => false

/-- The operation in progress at the end of a history: its most recent event
entry. -/
def lastOperation (history : List Entry) : Option Event :=
  history.foldl
    (fun last x =>
      match x with
      | .event e _ => some e
      | .call _ => last)
    none

/-- At every point of the history where `drive_.goToFloor` is issued during an
operation other than restore-service, the door was never commanded to open or
doors-closed has been accepted since the last `door_.open()`. -/
def movesGuarded (history : List Entry) : Prop :=
  ∀ (pre post : List Entry) (f : Nat),
    history = pre ++ Entry.call (.drive_goToFloor f) :: post →
    lastOperation pre ≠ some Event.restoreService →
    Entry.call .door_open ∉ pre ∨ Entry.event .closed true ∈ sinceLastDoorOpen pre

/-! ## The embedding agrees with the source's recursion -/

/-- The body of `Restoring::enter` ends in `changeState(fsm, Opening::instance())`
or `changeState(fsm, Moving::instance())`, as in the source. -/
theorem Restoring.enter_eq_changeState (drive : ElevatorDriveApi) (fsm : ElevatorFsm) :
    Restoring.enter drive fsm =
      (let fsm1 : ElevatorFsm :=
        ({ fsm with currentFloor_ := drive.getFloor,
                    destinationFloor_ := GROUND_FLOOR } : ElevatorFsm).call .ui_inService
       if drive.isAtFloor && (fsm1.currentFloor_ == fsm1.destinationFloor_) then
         State.changeState drive fsm1 .Opening
       else
         State.changeState drive fsm1 .Moving) := by
  simp

/-! ## Transition table -/

/-- C1: for every state, every event operation and every pair of floors, the
operation returns true exactly when the pair (state, event) is listed in the
transition table, and when it returns true the state afterwards is one of the
destinations the table lists for that pair. -/
theorem C1_accepts_iff_listed (s : State) (e : Event) (current destination : Nat)
    (calls : List Call) (drive : ElevatorDriveApi) :
    (((ElevatorFsm.mk s current destination calls).handle drive e).1 = true
        ↔ listedDestinations s e ≠ []) ∧
    (((ElevatorFsm.mk s current destination calls).handle drive e).1 = false
        ∨ ((ElevatorFsm.mk s current destination calls).handle drive e).2.state_
            ∈ listedDestinations s e) := by
  cases s <;> cases e <;> simp [ElevatorFsm.handle, listedDestinations] <;> split <;> simp

/-! ## Events that are not listed -/

/-- C2, as stated, fails: in Moving a floor request for floor 5 is not listed
and is refused, yet the destination floor changes from 2 to 5. -/
theorem C2_refused_floor_request_overwrites_destination :
    listedDestinations .Moving (.floorRequest 5) = [] ∧
    ((ElevatorFsm.mk .Moving 1 2 []).handle ⟨1, true⟩ (.floorRequest 5)).1 = false ∧
    ((ElevatorFsm.mk .Moving 1 2 []).handle ⟨1, true⟩ (.floorRequest 5)).2.destinationFloor_
      ≠ (ElevatorFsm.mk .Moving 1 2 []).destinationFloor_ := by
  decide

/-- C2, amended: an event that is not listed for the current state returns
false, issues no command and leaves the state and the current floor unchanged;
the destination floor is unchanged too, except that a floor request for floor f
leaves it equal to f. -/
theorem C2_unlisted_event_refused (s : State) (e : Event) (current destination : Nat)
    (calls : List Call) (drive : ElevatorDriveApi)
    (hunlisted : listedDestinations s e = []) :
    (ElevatorFsm.mk s current destination calls).handle drive e =
      (false, ElevatorFsm.mk s current
        (match e with
          | .floorRequest f => f
          | _ => destination) calls) := by
  cases s <;> cases e <;>
    first
      | (simp [listedDestinations] at hunlisted; done)
      | simp [ElevatorFsm.handle]

/-- Instance: a floor request for floor 5 delivered in Moving with floors 1 and 2. -/
theorem C2_unlisted_event_refused_witness :
    listedDestinations .Moving (.floorRequest 5) = [] ∧
    (ElevatorFsm.mk .Moving 1 2 [.ui_inService]).handle ⟨1, true⟩ (.floorRequest 5) =
      (false, ElevatorFsm.mk .Moving 1 5 [.ui_inService]) :=
  ⟨by decide,
   C2_unlisted_event_refused .Moving (.floorRequest 5) 1 2 [.ui_inService] ⟨1, true⟩
     (by decide)⟩

/-! ## Floor request while stopped -/

/-- C3: in Stopped, a request for floor f is accepted, stores f as destination
floor and compares the current floor c with it: when f = c the engine enters
Opening having issued exactly ui.arrived(f), door.open(), timer.start(5000);
otherwise it enters Moving having issued exactly drive.goToFloor(f),
timer.start(60000).  From the freshly constructed engine the ground floor gives
Opening and the floor above it gives Moving. -/
theorem C3_floor_request_when_stopped (f c d : Nat) (calls : List Call)
    (drive : ElevatorDriveApi) :
    (ElevatorFsm.mk .Stopped c d calls).handleFloorRequest drive f =
      (true, ElevatorFsm.mk (if f = c then .Opening else .Moving) c f
        (calls ++ (if f = c
          then [.ui_arrived f, .door_open, .timer_start 5000]
          else [.drive_goToFloor f, .timer_start 60000]))) ∧
    (ElevatorFsm.new.handleFloorRequest drive GROUND_FLOOR).2.state_ = .Opening ∧
    (ElevatorFsm.new.handleFloorRequest drive (GROUND_FLOOR + 1)).2.state_ = .Moving := by
  refine ⟨?_, ?_, ?_⟩
  · by_cases h : f = c
    · subst h
      simp [TIMEOUT_DOOR_OPEN_MSEC]
    · have h2 : ¬ c = f := fun hc => h hc.symm
      simp [h, h2, TIMEOUT_MOVE_TO_FLOOR_MSEC]
  · simp [ElevatorFsm.new, GROUND_FLOOR]
  · simp [ElevatorFsm.new, GROUND_FLOOR]

/-! ## Moore semantics -/

/-- C4: when an event other than restore-service is accepted, the commands
issued during the call are exactly the entry action of the state the engine is
in afterwards (with the destination floor it then holds), whatever the state
before and whatever the event; this covers re-entry of Waiting on open-button. -/
theorem C4_commands_are_entry_action (s : State) (e : Event) (current destination : Nat)
    (calls : List Call) (drive : ElevatorDriveApi)
    (hevent : e ≠ .restoreService)
    (haccepted : ((ElevatorFsm.mk s current destination calls).handle drive e).1 = true) :
    ((ElevatorFsm.mk s current destination calls).handle drive e).2.calls =
      calls ++ entryActionSpec
        ((ElevatorFsm.mk s current destination calls).handle drive e).2.state_
        ((ElevatorFsm.mk s current destination calls).handle drive e).2.destinationFloor_ := by
  cases s <;> cases e <;>
    simp_all [ElevatorFsm.handle, entryActionSpec, TIMEOUT_DOOR_OPEN_MSEC,
      TIMEOUT_DOOR_CLOSE_MSEC, TIMEOUT_MOVE_TO_FLOOR_MSEC, TIMER_WAITING_MSEC]
  split <;> simp

/-- Instance: open-button in Waiting re-enters Waiting and re-runs its entry action. -/
theorem C4_commands_are_entry_action_witness :
    ((ElevatorFsm.mk .Waiting 1 3 []).handle ⟨1, true⟩ .openButton).2.state_ = .Waiting ∧
    ((ElevatorFsm.mk .Waiting 1 3 []).handle ⟨1, true⟩ .openButton).2.calls =
      [] ++ entryActionSpec
        ((ElevatorFsm.mk .Waiting 1 3 []).handle ⟨1, true⟩ .openButton).2.state_
        ((ElevatorFsm.mk .Waiting 1 3 []).handle ⟨1, true⟩ .openButton).2.destinationFloor_ :=
  ⟨by decide,
   C4_commands_are_entry_action .Waiting .openButton 1 3 [] ⟨1, true⟩ (by decide) (by decide)⟩

/-! ## Service restoration -/

/-- C5: in OutOfService, restore-service with drive answers getFloor() = g and
isAtFloor() = a is accepted, sets the current floor to g and the destination
floor to the ground floor, and issues ui.inService() first; when a holds and g
is the ground floor the engine ends in Opening having then issued
ui.arrived(ground), door.open(), timer.start(5000); otherwise it ends in Moving
having then issued drive.goToFloor(ground), timer.start(60000).  In both cases
isInService() is true afterwards. -/
theorem C5_restore_service (current destination : Nat) (calls : List Call) (g : Nat)
    (a : Bool) :
    (ElevatorFsm.mk .OutOfService current destination calls).handleRestoreService ⟨g, a⟩ =
      (true, ElevatorFsm.mk (if a = true ∧ g = GROUND_FLOOR then .Opening else .Moving)
        g GROUND_FLOOR
        (calls ++ .ui_inService ::
          (if a = true ∧ g = GROUND_FLOOR
            then [.ui_arrived GROUND_FLOOR, .door_open, .timer_start 5000]
            else [.drive_goToFloor GROUND_FLOOR, .timer_start 60000]))) ∧
    ((ElevatorFsm.mk .OutOfService current destination calls).handleRestoreService
      ⟨g, a⟩).2.isInService = true := by
  by_cases h : a = true ∧ g = GROUND_FLOOR
  · obtain ⟨ha, hg⟩ := h
    subst ha hg
    simp [TIMEOUT_DOOR_OPEN_MSEC]
  · constructor
    · simp [h, TIMEOUT_MOVE_TO_FLOOR_MSEC]
    · simp
      split <;> simp

/-! ## Resuming -/

/-- C6 fails on the code: from the freshly constructed engine, a request for
the floor above ground followed by two stop-button events is accepted three
times and the engine is then in Resuming, where a further arrived event is
refused and leaves it in Resuming. -/
theorem C6_resuming_is_observable :
    ElevatorFsm.new.returns
      [(⟨1, true⟩, .floorRequest 2), (⟨1, true⟩, .stopButton), (⟨1, true⟩, .stopButton)]
      = [true, true, true] ∧
    (ElevatorFsm.new.run
      [(⟨1, true⟩, .floorRequest 2), (⟨1, true⟩, .stopButton),
        (⟨1, true⟩, .stopButton)]).state_ = .Resuming ∧
    ((ElevatorFsm.new.run
      [(⟨1, true⟩, .floorRequest 2), (⟨1, true⟩, .stopButton),
        (⟨1, true⟩, .stopButton)]).handle ⟨1, true⟩ .arrived).1 = false ∧
    (ElevatorFsm.new.run
      [(⟨1, true⟩, .floorRequest 2), (⟨1, true⟩, .stopButton), (⟨1, true⟩, .stopButton),
        (⟨1, true⟩, .arrived)]).state_ = .Resuming := by
  decide

/-- C7: after a floor request in Stopped for a floor f other than the current
floor the engine is in Moving; the next stop-button is accepted and leaves it
in Holding having issued exactly drive.stop(), ui.alarmOn(); a second
stop-button is accepted and leaves it in Resuming having issued exactly
drive.start(), ui.alarmOff(). -/
theorem C7_stop_button_twice (c d f : Nat) (calls : List Call)
    (drive0 drive1 drive2 : ElevatorDriveApi) (hf : f ≠ c) :
    (ElevatorFsm.mk .Stopped c d calls).handleFloorRequest drive0 f =
      (true, ElevatorFsm.mk .Moving c f
        (calls ++ [.drive_goToFloor f, .timer_start 60000])) ∧
    (ElevatorFsm.mk .Moving c f
        (calls ++ [.drive_goToFloor f, .timer_start 60000])).handleStopButton drive1 =
      (true, ElevatorFsm.mk .Holding c f
        ((calls ++ [.drive_goToFloor f, .timer_start 60000])
          ++ [.drive_stop, .ui_alarmOn])) ∧
    (ElevatorFsm.mk .Holding c f
        ((calls ++ [.drive_goToFloor f, .timer_start 60000])
          ++ [.drive_stop, .ui_alarmOn])).handleStopButton drive2 =
      (true, ElevatorFsm.mk .Resuming c f
        (((calls ++ [.drive_goToFloor f, .timer_start 60000])
          ++ [.drive_stop, .ui_alarmOn]) ++ [.drive_start, .ui_alarmOff])) := by
  have h2 : ¬ c = f := fun hc => hf hc.symm
  refine ⟨?_, ?_, ?_⟩
  · simp [h2, TIMEOUT_MOVE_TO_FLOOR_MSEC]
  · simp
  · simp

/-- Instance: the freshly constructed engine asked for floor 2, then stopped twice. -/
theorem C7_stop_button_twice_witness :
    (ElevatorFsm.mk .Stopped 1 1 [.ui_inService]).handleFloorRequest ⟨1, true⟩ 2 =
      (true, ElevatorFsm.mk .Moving 1 2
        ([.ui_inService] ++ [.drive_goToFloor 2, .timer_start 60000])) ∧
    (ElevatorFsm.mk .Moving 1 2
        ([.ui_inService] ++ [.drive_goToFloor 2, .timer_start 60000])).handleStopButton
          ⟨1, false⟩ =
      (true, ElevatorFsm.mk .Holding 1 2
        (([.ui_inService] ++ [.drive_goToFloor 2, .timer_start 60000])
          ++ [.drive_stop, .ui_alarmOn])) ∧
    (ElevatorFsm.mk .Holding 1 2
        (([.ui_inService] ++ [.drive_goToFloor 2, .timer_start 60000])
          ++ [.drive_stop, .ui_alarmOn])).handleStopButton ⟨1, false⟩ =
      (true, ElevatorFsm.mk .Resuming 1 2
        ((([.ui_inService] ++ [.drive_goToFloor 2, .timer_start 60000])
          ++ [.drive_stop, .ui_alarmOn]) ++ [.drive_start, .ui_alarmOff])) :=
  C7_stop_button_twice 1 1 2 [.ui_inService] ⟨1, true⟩ ⟨1, false⟩ ⟨1, false⟩ (by decide)

/-! ## Arrival -/

/-- C8: from Moving with destination floor f, arrived is accepted and leaves
the engine in Opening, and a following doors-opened is accepted and leaves it
in Waiting (isWaiting() true); the commands of the two calls are, in order,
ui.arrived(f), door.open(), timer.start(5000), timer.start(10000). -/
theorem C8_arrived_then_opened (f current : Nat) (calls : List Call)
    (drive1 drive2 : ElevatorDriveApi) :
    (ElevatorFsm.mk .Moving current f calls).handleArrived drive1 =
      (true, ElevatorFsm.mk .Opening current f
        (calls ++ [.ui_arrived f, .door_open, .timer_start 5000])) ∧
    (ElevatorFsm.mk .Opening current f
        (calls ++ [.ui_arrived f, .door_open, .timer_start 5000])).handleOpened drive2 =
      (true, ElevatorFsm.mk .Waiting current f
        (calls ++ [.ui_arrived f, .door_open, .timer_start 5000, .timer_start 10000])) ∧
    (ElevatorFsm.mk .Waiting current f
        (calls ++ [.ui_arrived f, .door_open, .timer_start 5000,
          .timer_start 10000])).isWaiting = true := by
  simp [TIMEOUT_DOOR_OPEN_MSEC, TIMER_WAITING_MSEC]

/-! ## Faults and timeouts -/

/-- C9: in each of Moving, Opening and Closing, door-fault, drive-fault and
timer-expired all give the same result: the event is accepted, the engine ends
in OutOfService having issued exactly ui.outOfService(), both floors are
unchanged, and isInService() is false. -/
theorem C9_fault_like_timeout (s : State) (current destination : Nat) (calls : List Call)
    (drive : ElevatorDriveApi)
    (hs : s = .Moving ∨ s = .Opening ∨ s = .Closing) :
    (ElevatorFsm.mk s current destination calls).handleDoorFault drive =
      (true, ElevatorFsm.mk .OutOfService current destination
        (calls ++ [.ui_outOfService])) ∧
    (ElevatorFsm.mk s current destination calls).handleDriveFault drive =
      (true, ElevatorFsm.mk .OutOfService current destination
        (calls ++ [.ui_outOfService])) ∧
    (ElevatorFsm.mk s current destination calls).handleExpired drive =
      (true, ElevatorFsm.mk .OutOfService current destination
        (calls ++ [.ui_outOfService])) ∧
    (ElevatorFsm.mk .OutOfService current destination
        (calls ++ [.ui_outOfService])).isInService = false := by
  rcases hs with h | h | h <;> subst h <;> simp

/-- Instance: the three events delivered in Closing with floors 3 and 1. -/
theorem C9_fault_like_timeout_witness :
    (ElevatorFsm.mk .Closing 3 1 []).handleDoorFault ⟨3, true⟩ =
      (true, ElevatorFsm.mk .OutOfService 3 1 ([] ++ [.ui_outOfService])) ∧
    (ElevatorFsm.mk .Closing 3 1 []).handleDriveFault ⟨3, true⟩ =
      (true, ElevatorFsm.mk .OutOfService 3 1 ([] ++ [.ui_outOfService])) ∧
    (ElevatorFsm.mk .Closing 3 1 []).handleExpired ⟨3, true⟩ =
      (true, ElevatorFsm.mk .OutOfService 3 1 ([] ++ [.ui_outOfService])) ∧
    (ElevatorFsm.mk .OutOfService 3 1 ([] ++ [.ui_outOfService])).isInService = false :=
  C9_fault_like_timeout .Closing 3 1 [] ⟨3, true⟩ (Or.inr (Or.inr rfl))

/-! ## Out of service -/

/-- In OutOfService an event other than restore-service is refused; the engine
stays in OutOfService and no port receives a call. -/
theorem outOfService_refuses (fsm : ElevatorFsm) (drive : ElevatorDriveApi) (e : Event)
    (hstate : fsm.state_ = .OutOfService) (hevent : e ≠ .restoreService) :
    (fsm.handle drive e).1 = false ∧
    (fsm.handle drive e).2.state_ = .OutOfService ∧
    (fsm.handle drive e).2.calls = fsm.calls := by
  obtain ⟨s, c, d, calls⟩ := fsm
  simp only at hstate
  subst hstate
  cases e <;> simp_all [ElevatorFsm.handle]

/-- Over a whole sequence without restore-service, OutOfService persists. -/
theorem outOfService_run (seq : List (ElevatorDriveApi × Event)) :
    ∀ fsm : ElevatorFsm, fsm.state_ = .OutOfService →
      (∀ x ∈ seq, x.2 ≠ Event.restoreService) →
      (∀ b ∈ fsm.returns seq, b = false) ∧
      (fsm.run seq).state_ = .OutOfService ∧
      (fsm.run seq).calls = fsm.calls := by
  induction seq with
  | nil =>
    intro fsm hstate _
    simp [ElevatorFsm.returns, ElevatorFsm.run, hstate]
  | cons x rest ih =>
    intro fsm hstate hseq
    obtain ⟨drive, e⟩ := x
    have he : e ≠ Event.restoreService := hseq (drive, e) (List.mem_cons_self _ _)
    obtain ⟨h1, h2, h3⟩ := outOfService_refuses fsm drive e hstate he
    obtain ⟨r1, r2, r3⟩ := ih (fsm.handle drive e).2 h2
      (fun y hy => hseq y (List.mem_cons_of_mem _ hy))
    refine ⟨?_, ?_, ?_⟩
    · intro b hb
      simp only [ElevatorFsm.returns, List.mem_cons] at hb
      rcases hb with hb | hb
      · rw [hb, h1]
      · exact r1 b hb
    · show ((fsm.handle drive e).2.run rest).state_ = State.OutOfService
      exact r2
    · show ((fsm.handle drive e).2.run rest).calls = fsm.calls
      rw [r3, h3]

/-- C10: starting in OutOfService, along any finite sequence of events none of
which is restore-service, after every prefix of the sequence every event so far
has returned false, no command has been issued, the state is OutOfService and
isInService() is false. -/
theorem C10_out_of_service_until_restore (fsm : ElevatorFsm)
    (seq : List (ElevatorDriveApi × Event))
    (hstate : fsm.state_ = .OutOfService)
    (hseq : ∀ x ∈ seq, x.2 ≠ Event.restoreService)
    (pre : List (ElevatorDriveApi × Event)) (hpre : pre <+: seq) :
    (∀ b ∈ fsm.returns pre, b = false) ∧
    (fsm.run pre).calls = fsm.calls ∧
    (fsm.run pre).state_ = .OutOfService ∧
    (fsm.run pre).isInService = false := by
  have hmem : ∀ x ∈ pre, x.2 ≠ Event.restoreService :=
    fun x hx => hseq x (hpre.subset hx)
  obtain ⟨r1, r2, r3⟩ := outOfService_run pre fsm hstate hmem
  exact ⟨r1, r3, r2, by simp [r2]⟩

/-- Instance: a two-event prefix of a three-event sequence delivered in OutOfService. -/
theorem C10_out_of_service_until_restore_witness :
    (∀ b ∈ (ElevatorFsm.mk .OutOfService 2 3 [.ui_outOfService]).returns
        [(⟨2, true⟩, .floorRequest 4), (⟨2, true⟩, .expired)], b = false) ∧
    ((ElevatorFsm.mk .OutOfService 2 3 [.ui_outOfService]).run
        [(⟨2, true⟩, .floorRequest 4), (⟨2, true⟩, .expired)]).calls
      = (ElevatorFsm.mk .OutOfService 2 3 [.ui_outOfService]).calls ∧
    ((ElevatorFsm.mk .OutOfService 2 3 [.ui_outOfService]).run
        [(⟨2, true⟩, .floorRequest 4), (⟨2, true⟩, .expired)]).state_ = .OutOfService ∧
    ((ElevatorFsm.mk .OutOfService 2 3 [.ui_outOfService]).run
        [(⟨2, true⟩, .floorRequest 4), (⟨2, true⟩, .expired)]).isInService = false :=
  C10_out_of_service_until_restore (ElevatorFsm.mk .OutOfService 2 3 [.ui_outOfService])
    [(⟨2, true⟩, .floorRequest 4), (⟨2, true⟩, .expired), (⟨2, true⟩, .doorFault)]
    rfl (by decide)
    [(⟨2, true⟩, .floorRequest 4), (⟨2, true⟩, .expired)]
    ⟨[(⟨2, true⟩, .doorFault)], rfl⟩

/-! ## Reachability -/

/-- A property that holds of an engine and is kept by every event operation
holds after any sequence of events. -/
theorem run_invariant (P : ElevatorFsm → Prop)
    (hstep : ∀ fsm drive e, P fsm → P (fsm.handle drive e).2)
    (seq : List (ElevatorDriveApi × Event)) :
    ∀ fsm : ElevatorFsm, P fsm → P (fsm.run seq) := by
  induction seq with
  | nil => intro fsm h; exact h
  | cons x rest ih =>
    intro fsm h
    obtain ⟨drive, e⟩ := x
    exact ih _ (hstep fsm drive e h)

/-- The same for a property of the engine together with its history. -/
theorem trace_invariant (P : ElevatorFsm → List Entry → Prop)
    (hstep : ∀ fsm history drive e, P fsm history →
      P (fsm.handle drive e).2
        (history ++ Entry.event e (fsm.handle drive e).1 ::
          ((fsm.handle drive e).2.calls.drop fsm.calls.length).map Entry.call))
    (seq : List (ElevatorDriveApi × Event)) :
    ∀ (fsm : ElevatorFsm) (history : List Entry), P fsm history →
      P (fsm.trace history seq).1 (fsm.trace history seq).2 := by
  induction seq with
  | nil => intro fsm history h; exact h
  | cons x rest ih =>
    intro fsm history h
    obtain ⟨drive, e⟩ := x
    exact ih _ _ (hstep fsm history drive e h)

/-- The engine that `trace` ends in is the one `run` ends in. -/
theorem trace_fst_eq_run (seq : List (ElevatorDriveApi × Event)) :
    ∀ (fsm : ElevatorFsm) (history : List Entry),
      (fsm.trace history seq).1 = fsm.run seq := by
  induction seq with
  | nil => intro fsm history; rfl
  | cons x rest ih =>
    intro fsm history
    obtain ⟨drive, e⟩ := x
    exact ih _ _

/-! ## Status queries -/

/-- C11: each status query is a function of the state tag alone (its value is
the same for any floors and any record of calls): isInService() is false exactly
in OutOfService, isIdle() is true exactly in Stopped, isWaiting() is true exactly
in Waiting.  Hence isIdle() and isWaiting() are never both true and each implies
isInService(). -/
theorem C11_status_queries (fsm : ElevatorFsm) (current destination : Nat)
    (calls : List Call) :
    (fsm.isInService = false ↔ fsm.state_ = .OutOfService) ∧
    (fsm.isIdle = true ↔ fsm.state_ = .Stopped) ∧
    (fsm.isWaiting = true ↔ fsm.state_ = .Waiting) ∧
    fsm.isInService = (ElevatorFsm.mk fsm.state_ current destination calls).isInService ∧
    fsm.isIdle = (ElevatorFsm.mk fsm.state_ current destination calls).isIdle ∧
    fsm.isWaiting = (ElevatorFsm.mk fsm.state_ current destination calls).isWaiting ∧
    (fsm.isIdle && fsm.isWaiting) = false ∧
    (fsm.isIdle = false ∨ fsm.isInService = true) ∧
    (fsm.isWaiting = false ∨ fsm.isInService = true) := by
  obtain ⟨s, c, d, cs⟩ := fsm
  cases s <;> simp

/-! ## Construction -/

/-- C12: the freshly constructed engine is in Stopped with current and
destination floor both the ground floor (1), has issued exactly one command,
ui.inService(), and reports isIdle() true, isInService() true, isWaiting()
false. -/
theorem C12_construction :
    ElevatorFsm.new = ElevatorFsm.mk .Stopped 1 1 [.ui_inService] ∧
    GROUND_FLOOR = 1 ∧
    ElevatorFsm.new.isIdle = true ∧
    ElevatorFsm.new.isInService = true ∧
    ElevatorFsm.new.isWaiting = false := by
  decide

/-! ## Restoring -/

/-- No event operation ends in Restoring unless the engine was already there. -/
theorem handle_not_restoring (fsm : ElevatorFsm) (drive : ElevatorDriveApi) (e : Event)
    (h : fsm.state_ ≠ .Restoring) : (fsm.handle drive e).2.state_ ≠ .Restoring := by
  obtain ⟨s, c, d, cs⟩ := fsm
  cases s <;> cases e <;> simp_all [ElevatorFsm.handle] <;> split <;> simp

/-- C13: after any sequence of events applied to the freshly constructed engine,
with any drive answers, the state is not Restoring (the sequence is arbitrary,
so this holds after each of its operations); and restore-service in
OutOfService, the one call that passes through Restoring, returns with the
engine in Opening or in Moving. -/
theorem C13_restoring_never_observable (seq : List (ElevatorDriveApi × Event))
    (current destination : Nat) (calls : List Call) (drive : ElevatorDriveApi) :
    (ElevatorFsm.new.run seq).state_ ≠ .Restoring ∧
    (((ElevatorFsm.mk .OutOfService current destination calls).handleRestoreService
        drive).2.state_ = .Opening ∨
      ((ElevatorFsm.mk .OutOfService current destination calls).handleRestoreService
        drive).2.state_ = .Moving) := by
  constructor
  · exact run_invariant (fun fsm => fsm.state_ ≠ .Restoring) handle_not_restoring seq
      ElevatorFsm.new (by decide)
  · simp
    split <;> simp

/-! ## The floor announced on arrival -/

/-- C14 fails on the code: the freshly constructed engine is sent to floor 2; a
request for floor 3 is then refused in Moving but overwrites the destination
floor; the arrived event that follows is accepted and announces ui.arrived(3),
although the most recent drive.goToFloor was for floor 2. -/
theorem C14_arrival_announces_refused_request :
    ElevatorFsm.new.returns
      [(⟨1, false⟩, .floorRequest 2), (⟨1, false⟩, .floorRequest 3), (⟨2, true⟩, .arrived)]
      = [true, false, true] ∧
    (ElevatorFsm.new.run
      [(⟨1, false⟩, .floorRequest 2), (⟨1, false⟩, .floorRequest 3)]).state_ = .Moving ∧
    (ElevatorFsm.new.run
      [(⟨1, false⟩, .floorRequest 2), (⟨1, false⟩, .floorRequest 3),
        (⟨2, true⟩, .arrived)]).calls
      = [.ui_inService, .drive_goToFloor 2, .timer_start 60000,
          .ui_arrived 3, .door_open, .timer_start 5000] := by
  decide

/-! ## Who writes the floors -/

/-- C15: for every state, floors and event operation, the current floor after
the call equals the current floor before it, except for restore-service in
OutOfService (where it is accepted), after which it equals the answer of the
drive's getFloor() query. -/
theorem C15_current_floor_frame (s : State) (e : Event) (current destination : Nat)
    (calls : List Call) (drive : ElevatorDriveApi) :
    ((ElevatorFsm.mk s current destination calls).handle drive e).2.currentFloor_ =
      (if s = .OutOfService ∧ e = .restoreService then drive.getFloor else current) := by
  cases s <;> cases e <;> simp [ElevatorFsm.handle] <;> split <;> simp

/-- C16: for every state and floors, the destination floor after an event
operation is: f after handleFloorRequest(f), accepted or not; the ground floor
(1) after restore-service in OutOfService; its value before the call after
every other operation. -/
theorem C16_destination_floor_frame (s : State) (e : Event) (current destination : Nat)
    (calls : List Call) (drive : ElevatorDriveApi) :
    ((ElevatorFsm.mk s current destination calls).handle drive e).2.destinationFloor_ =
      (match e with
        | .floorRequest f => f
        | .restoreService => if s = .OutOfService then 1 else destination
        | _ => destination) := by
  cases s <;> cases e <;> simp [ElevatorFsm.handle, GROUND_FLOOR] <;> split <;> simp

/-! ## Closing the doors -/

/-- C17: in Waiting, close-button and timer-expired are both accepted with the
same result, the engine in Closing having issued exactly door.close(),
timer.start(7000); a following doors-closed is accepted and ends in Stopped
without any further command, where isIdle() is true; the floors never change. -/
theorem C17_door_closing_cycle (current destination : Nat) (calls : List Call)
    (drive1 drive2 : ElevatorDriveApi) :
    (ElevatorFsm.mk .Waiting current destination calls).handleCloseButton drive1 =
      (true, ElevatorFsm.mk .Closing current destination
        (calls ++ [.door_close, .timer_start 7000])) ∧
    (ElevatorFsm.mk .Waiting current destination calls).handleExpired drive1 =
      (true, ElevatorFsm.mk .Closing current destination
        (calls ++ [.door_close, .timer_start 7000])) ∧
    (ElevatorFsm.mk .Closing current destination
        (calls ++ [.door_close, .timer_start 7000])).handleClosed drive2 =
      (true, ElevatorFsm.mk .Stopped current destination
        (calls ++ [.door_close, .timer_start 7000])) ∧
    (ElevatorFsm.mk .Stopped current destination
        (calls ++ [.door_close, .timer_start 7000])).isIdle = true := by
  simp [TIMEOUT_DOOR_CLOSE_MSEC]

/-! ## Holding the doors open -/

/-- C18: n consecutive open-button events in Waiting (n the length of the list
of drive answers, one per press) are all accepted and leave the engine in
Waiting with both floors unchanged, having issued exactly n commands, each
timer.start(10000). -/
theorem C18_waiting_reentry (current destination : Nat) (drives : List ElevatorDriveApi) :
    ∀ calls : List Call,
      (ElevatorFsm.mk .Waiting current destination calls).returns
          (drives.map (fun drive => (drive, Event.openButton)))
        = List.replicate drives.length true ∧
      (ElevatorFsm.mk .Waiting current destination calls).run
          (drives.map (fun drive => (drive, Event.openButton)))
        = ElevatorFsm.mk .Waiting current destination
            (calls ++ List.replicate drives.length (Call.timer_start 10000)) := by
  induction drives with
  | nil =>
    intro calls
    simp [ElevatorFsm.returns, ElevatorFsm.run]
  | cons drive rest ih =>
    intro calls
    have hstep : (ElevatorFsm.mk .Waiting current destination calls).handle drive .openButton
        = (true, ElevatorFsm.mk .Waiting current destination
            (calls ++ [Call.timer_start 10000])) := by
      simp [ElevatorFsm.handle, TIMER_WAITING_MSEC]
    obtain ⟨h1, h2⟩ := ih (calls ++ [Call.timer_start 10000])
    constructor
    · simp only [List.map_cons, ElevatorFsm.returns, hstep, h1, List.length_cons,
        List.replicate_succ]
    · simp only [List.map_cons, ElevatorFsm.run, hstep, h2, List.length_cons,
        List.replicate_succ, List.append_assoc, List.singleton_append]

/-! ## Timeouts -/

/-- Every event operation keeps: in a timed state the most recent timer.start
carried that state's constant. -/
theorem handle_keeps_timeout (fsm : ElevatorFsm) (drive : ElevatorDriveApi) (e : Event)
    (h : ∀ k, stateTimeoutSpec fsm.state_ = some k → lastTimerStart fsm.calls = some k) :
    ∀ k, stateTimeoutSpec (fsm.handle drive e).2.state_ = some k →
      lastTimerStart (fsm.handle drive e).2.calls = some k := by
  obtain ⟨s, c, d, cs⟩ := fsm
  cases s <;> cases e
  case Stopped.floorRequest f =>
    by_cases hc : c = f <;>
      simp [ElevatorFsm.handle, stateTimeoutSpec, lastTimerStart, List.foldl_append,
        TIMEOUT_DOOR_OPEN_MSEC, TIMEOUT_MOVE_TO_FLOOR_MSEC, hc]
  case OutOfService.restoreService =>
    by_cases hc : drive.isAtFloor = true ∧ drive.getFloor = GROUND_FLOOR <;>
      simp [ElevatorFsm.handle, stateTimeoutSpec, lastTimerStart, List.foldl_append,
        TIMEOUT_DOOR_OPEN_MSEC, TIMEOUT_MOVE_TO_FLOOR_MSEC, hc]
  all_goals
    simp_all [ElevatorFsm.handle, stateTimeoutSpec, lastTimerStart, List.foldl_append,
      TIMEOUT_DOOR_OPEN_MSEC, TIMEOUT_DOOR_CLOSE_MSEC, TIMEOUT_MOVE_TO_FLOOR_MSEC,
      TIMER_WAITING_MSEC]

/-- C19: in every state reached from construction by any sequence of events, if
the state is Moving, Opening, Waiting or Closing then the most recent
timer.start carried that state's own constant (60000, 5000, 10000, 7000); so
whenever timer-expired is accepted there, the state is one of these four and the
timer last armed is its own. -/
theorem C19_timeout_scoped_to_state (seq : List (ElevatorDriveApi × Event)) :
    (∀ k, stateTimeoutSpec (ElevatorFsm.new.run seq).state_ = some k →
      lastTimerStart (ElevatorFsm.new.run seq).calls = some k) ∧
    (∀ drive, ((ElevatorFsm.new.run seq).handle drive .expired).1 = true →
      ∃ k, stateTimeoutSpec (ElevatorFsm.new.run seq).state_ = some k ∧
        lastTimerStart (ElevatorFsm.new.run seq).calls = some k) := by
  have hinv := run_invariant
    (fun fsm => ∀ k, stateTimeoutSpec fsm.state_ = some k → lastTimerStart fsm.calls = some k)
    handle_keeps_timeout seq ElevatorFsm.new (by decide)
  refine ⟨hinv, ?_⟩
  intro drive hacc
  generalize ElevatorFsm.new.run seq = fsm at hinv hacc ⊢
  obtain ⟨s, c, d, cs⟩ := fsm
  cases s <;> simp_all [ElevatorFsm.handle, stateTimeoutSpec]

/-- Instance: after a request for floor 2 and the arrival there, the engine is in
Opening and the timer last armed is the door-open timeout. -/
theorem C19_timeout_scoped_to_state_witness :
    stateTimeoutSpec (ElevatorFsm.new.run
      [(⟨1, true⟩, .floorRequest 2), (⟨2, true⟩, .arrived)]).state_ = some 5000 ∧
    lastTimerStart (ElevatorFsm.new.run
      [(⟨1, true⟩, .floorRequest 2), (⟨2, true⟩, .arrived)]).calls = some 5000 :=
  ⟨by decide,
   (C19_timeout_scoped_to_state [(⟨1, true⟩, .floorRequest 2), (⟨2, true⟩, .arrived)]).1
     5000 (by decide)⟩

/-! ## Door status behind the status queries -/

/-- Every event operation keeps the door invariant. -/
theorem handle_keeps_doorHistoryInvariant (fsm : ElevatorFsm) (history : List Entry)
    (drive : ElevatorDriveApi) (e : Event) (h : doorHistoryInvariant fsm history) :
    doorHistoryInvariant (fsm.handle drive e).2
      (history ++ Entry.event e (fsm.handle drive e).1 ::
        ((fsm.handle drive e).2.calls.drop fsm.calls.length).map Entry.call) := by
  obtain ⟨s, c, d, cs⟩ := fsm
  cases s <;> cases e
  case Stopped.floorRequest f =>
    by_cases hc : c = f <;>
      simp [ElevatorFsm.handle, doorHistoryInvariant, sinceLastDoorOpen, List.foldl_append, hc]
  case OutOfService.restoreService =>
    by_cases hc : drive.isAtFloor = true ∧ drive.getFloor = GROUND_FLOOR <;>
      simp [ElevatorFsm.handle, doorHistoryInvariant, sinceLastDoorOpen, List.foldl_append, hc]
  all_goals
    simp_all [ElevatorFsm.handle, doorHistoryInvariant, sinceLastDoorOpen, List.foldl_append]

/-- C20: in every state reached from construction by any sequence of events, if
isIdle() is true then door.open() was never issued or a doors-closed event has
been accepted after the last door.open(); and if isWaiting() is true then
door.open() was issued, a doors-opened event has been accepted after the last
door.open(), and no door.close() has been issued since that door.open(). -/
theorem C20_door_status_behind_queries (seq : List (ElevatorDriveApi × Event)) :
    ((ElevatorFsm.new.run seq).isIdle = true →
      Entry.call .door_open ∉ ElevatorFsm.history seq ∨
        Entry.event .closed true ∈ sinceLastDoorOpen (ElevatorFsm.history seq)) ∧
    ((ElevatorFsm.new.run seq).isWaiting = true →
      Entry.call .door_open ∈ ElevatorFsm.history seq ∧
        Entry.event .opened true ∈ sinceLastDoorOpen (ElevatorFsm.history seq) ∧
        Entry.call .door_close ∉ sinceLastDoorOpen (ElevatorFsm.history seq)) := by
  have hinv := trace_invariant doorHistoryInvariant handle_keeps_doorHistoryInvariant seq
    ElevatorFsm.new (ElevatorFsm.new.calls.map Entry.call)
    (by simp [doorHistoryInvariant, ElevatorFsm.new])
  rw [trace_fst_eq_run] at hinv
  unfold ElevatorFsm.history
  generalize (ElevatorFsm.new.trace (ElevatorFsm.new.calls.map Entry.call) seq).2 = history
    at hinv ⊢
  generalize ElevatorFsm.new.run seq = fsm at hinv ⊢
  obtain ⟨s, c, d, cs⟩ := fsm
  cases s <;> simp_all [doorHistoryInvariant]

/-- Instance: request for the ground floor, doors opened, waiting time expired,
doors closed: the engine is idle and doors-closed was accepted after the last
door.open(). -/
theorem C20_door_status_behind_queries_witness :
    (ElevatorFsm.new.run
      [(⟨1, true⟩, .floorRequest 1), (⟨1, true⟩, .opened), (⟨1, true⟩, .expired),
        (⟨1, true⟩, .closed)]).isIdle = true ∧
    Entry.call .door_open ∈ ElevatorFsm.history
      [(⟨1, true⟩, .floorRequest 1), (⟨1, true⟩, .opened), (⟨1, true⟩, .expired),
        (⟨1, true⟩, .closed)] ∧
    (Entry.call .door_open ∉ ElevatorFsm.history
      [(⟨1, true⟩, .floorRequest 1), (⟨1, true⟩, .opened), (⟨1, true⟩, .expired),
        (⟨1, true⟩, .closed)] ∨
      Entry.event .closed true ∈ sinceLastDoorOpen (ElevatorFsm.history
        [(⟨1, true⟩, .floorRequest 1), (⟨1, true⟩, .opened), (⟨1, true⟩, .expired),
          (⟨1, true⟩, .closed)])) :=
  ⟨by decide, by decide,
   (C20_door_status_behind_queries
      [(⟨1, true⟩, .floorRequest 1), (⟨1, true⟩, .opened), (⟨1, true⟩, .expired),
        (⟨1, true⟩, .closed)]).1 (by decide)⟩

/-! ## Positive floors -/

/-- C21, as stated, fails: a request for floor 0 is accepted by the freshly
constructed engine and leaves the destination floor 0; and after a fault, a
restore-service for which the drive answers getFloor() = 0 leaves the current
floor 0. -/
theorem C21_floor_zero_is_stored :
    (ElevatorFsm.new.run [(⟨1, true⟩, .floorRequest 0)]).destinationFloor_ = 0 ∧
    (ElevatorFsm.new.run
      [(⟨1, true⟩, .floorRequest 2), (⟨1, false⟩, .driveFault),
        (⟨0, false⟩, .restoreService)]).currentFloor_ = 0 := by
  decide

/-- An event operation whose floor values are positive keeps both floors positive. -/
theorem handle_keeps_positive (fsm : ElevatorFsm) (drive : ElevatorDriveApi) (e : Event)
    (hin : positiveFloors (drive, e) = true)
    (h : 1 ≤ fsm.currentFloor_ ∧ 1 ≤ fsm.destinationFloor_) :
    1 ≤ (fsm.handle drive e).2.currentFloor_ ∧
      1 ≤ (fsm.handle drive e).2.destinationFloor_ := by
  obtain ⟨s, c, d, cs⟩ := fsm
  obtain ⟨hc, hd⟩ := h
  simp only at hc hd
  cases s <;> cases e
  case Stopped.floorRequest f =>
    by_cases hf : c = f <;> simp_all [ElevatorFsm.handle, positiveFloors]
  case OutOfService.restoreService =>
    have hg : 1 ≤ drive.getFloor := by simpa [positiveFloors] using hin
    by_cases hf : drive.isAtFloor = true ∧ drive.getFloor = 1
    · simp [ElevatorFsm.handle, GROUND_FLOOR, hf]
    · simp [ElevatorFsm.handle, GROUND_FLOOR, hf, hg]
  all_goals simp_all [ElevatorFsm.handle, positiveFloors]

/-- C21, amended: in every state reached from construction by a sequence of
event operations whose floor payloads and drive getFloor() answers are all at
least 1, the current floor and the destination floor are at least 1. -/
theorem C21_floors_positive_for_positive_inputs (seq : List (ElevatorDriveApi × Event))
    (hseq : ∀ x ∈ seq, positiveFloors x = true) :
    1 ≤ (ElevatorFsm.new.run seq).currentFloor_ ∧
      1 ≤ (ElevatorFsm.new.run seq).destinationFloor_ := by
  have key : ∀ (l : List (ElevatorDriveApi × Event)) (fsm : ElevatorFsm),
      (∀ x ∈ l, positiveFloors x = true) →
      (1 ≤ fsm.currentFloor_ ∧ 1 ≤ fsm.destinationFloor_) →
      1 ≤ (fsm.run l).currentFloor_ ∧ 1 ≤ (fsm.run l).destinationFloor_ := by
    intro l
    induction l with
    | nil => intro fsm _ h; exact h
    | cons x rest ih =>
      intro fsm hl h
      obtain ⟨drive, e⟩ := x
      exact ih _ (fun y hy => hl y (List.mem_cons_of_mem _ hy))
        (handle_keeps_positive fsm drive e (hl _ (List.mem_cons_self _ _)) h)
  exact key seq ElevatorFsm.new hseq (by decide)

/-- Instance: a request for floor 3, a drive fault, and a restoration for which
the drive answers floor 2. -/
theorem C21_floors_positive_for_positive_inputs_witness :
    1 ≤ (ElevatorFsm.new.run
      [(⟨1, true⟩, .floorRequest 3), (⟨1, false⟩, .driveFault),
        (⟨2, false⟩, .restoreService)]).currentFloor_ ∧
    1 ≤ (ElevatorFsm.new.run
      [(⟨1, true⟩, .floorRequest 3), (⟨1, false⟩, .driveFault),
        (⟨2, false⟩, .restoreService)]).destinationFloor_ :=
  C21_floors_positive_for_positive_inputs
    [(⟨1, true⟩, .floorRequest 3), (⟨1, false⟩, .driveFault), (⟨2, false⟩, .restoreService)]
    (by decide)

/-! ## Resuming is a sink -/

/-- In Resuming every event is refused; the engine stays in Resuming and no port
receives a call. -/
theorem resuming_refuses (fsm : ElevatorFsm) (drive : ElevatorDriveApi) (e : Event)
    (hstate : fsm.state_ = .Resuming) :
    (fsm.handle drive e).1 = false ∧
    (fsm.handle drive e).2.state_ = .Resuming ∧
    (fsm.handle drive e).2.calls = fsm.calls := by
  obtain ⟨s, c, d, calls⟩ := fsm
  simp only at hstate
  subst hstate
  cases e <;> simp [ElevatorFsm.handle]

/-- Over a whole sequence of events, Resuming persists. -/
theorem resuming_run (seq : List (ElevatorDriveApi × Event)) :
    ∀ fsm : ElevatorFsm, fsm.state_ = .Resuming →
      (∀ b ∈ fsm.returns seq, b = false) ∧
      (fsm.run seq).state_ = .Resuming ∧
      (fsm.run seq).calls = fsm.calls := by
  induction seq with
  | nil =>
    intro fsm hstate
    simp [ElevatorFsm.returns, ElevatorFsm.run, hstate]
  | cons x rest ih =>
    intro fsm hstate
    obtain ⟨drive, e⟩ := x
    obtain ⟨h1, h2, h3⟩ := resuming_refuses fsm drive e hstate
    obtain ⟨r1, r2, r3⟩ := ih (fsm.handle drive e).2 h2
    refine ⟨?_, ?_, ?_⟩
    · intro b hb
      simp only [ElevatorFsm.returns, List.mem_cons] at hb
      rcases hb with hb | hb
      · rw [hb, h1]
      · exact r1 b hb
    · show ((fsm.handle drive e).2.run rest).state_ = State.Resuming
      exact r2
    · show ((fsm.handle drive e).2.run rest).calls = fsm.calls
      rw [r3, h3]

/-- C23: starting in Resuming, along any finite sequence of events every event
returns false, no command is issued and the state remains Resuming, so that
isIdle() and isWaiting() are false and isInService() is true; and a stop-button
in Holding is accepted and puts the engine in Resuming, from where this holds
for ever. -/
theorem C23_resuming_is_sink (fsm : ElevatorFsm) (seq : List (ElevatorDriveApi × Event))
    (current destination : Nat) (calls : List Call) (drive : ElevatorDriveApi)
    (hstate : fsm.state_ = .Resuming) :
    ((∀ b ∈ fsm.returns seq, b = false) ∧
      (fsm.run seq).calls = fsm.calls ∧
      (fsm.run seq).state_ = .Resuming ∧
      (fsm.run seq).isIdle = false ∧
      (fsm.run seq).isWaiting = false ∧
      (fsm.run seq).isInService = true) ∧
    ((ElevatorFsm.mk .Holding current destination calls).handleStopButton drive).1 = true ∧
    ((ElevatorFsm.mk .Holding current destination calls).handleStopButton drive).2.state_
      = .Resuming := by
  obtain ⟨r1, r2, r3⟩ := resuming_run seq fsm hstate
  exact ⟨⟨r1, r3, r2, by simp [r2], by simp [r2], by simp [r2]⟩, by simp, by simp⟩

/-- Instance: the engine left by the second stop-button, then sent an arrival, a
floor request, a timer expiry and a third stop-button. -/
theorem C23_resuming_is_sink_witness :
    ((∀ b ∈ ((ElevatorFsm.mk .Holding 1 2 []).handleStopButton ⟨1, false⟩).2.returns
        [(⟨2, true⟩, .arrived), (⟨2, true⟩, .floorRequest 3), (⟨2, true⟩, .expired),
          (⟨2, true⟩, .stopButton)], b = false) ∧
      (((ElevatorFsm.mk .Holding 1 2 []).handleStopButton ⟨1, false⟩).2.run
        [(⟨2, true⟩, .arrived), (⟨2, true⟩, .floorRequest 3), (⟨2, true⟩, .expired),
          (⟨2, true⟩, .stopButton)]).calls
        = ((ElevatorFsm.mk .Holding 1 2 []).handleStopButton ⟨1, false⟩).2.calls ∧
      (((ElevatorFsm.mk .Holding 1 2 []).handleStopButton ⟨1, false⟩).2.run
        [(⟨2, true⟩, .arrived), (⟨2, true⟩, .floorRequest 3), (⟨2, true⟩, .expired),
          (⟨2, true⟩, .stopButton)]).state_ = .Resuming ∧
      (((ElevatorFsm.mk .Holding 1 2 []).handleStopButton ⟨1, false⟩).2.run
        [(⟨2, true⟩, .arrived), (⟨2, true⟩, .floorRequest 3), (⟨2, true⟩, .expired),
          (⟨2, true⟩, .stopButton)]).isIdle = false ∧
      (((ElevatorFsm.mk .Holding 1 2 []).handleStopButton ⟨1, false⟩).2.run
        [(⟨2, true⟩, .arrived), (⟨2, true⟩, .floorRequest 3), (⟨2, true⟩, .expired),
          (⟨2, true⟩, .stopButton)]).isWaiting = false ∧
      (((ElevatorFsm.mk .Holding 1 2 []).handleStopButton ⟨1, false⟩).2.run
        [(⟨2, true⟩, .arrived), (⟨2, true⟩, .floorRequest 3), (⟨2, true⟩, .expired),
          (⟨2, true⟩, .stopButton)]).isInService = true) ∧
    ((ElevatorFsm.mk .Holding 1 2 []).handleStopButton ⟨1, false⟩).1 = true ∧
    ((ElevatorFsm.mk .Holding 1 2 []).handleStopButton ⟨1, false⟩).2.state_ = .Resuming :=
  C23_resuming_is_sink ((ElevatorFsm.mk .Holding 1 2 []).handleStopButton ⟨1, false⟩).2
    [(⟨2, true⟩, .arrived), (⟨2, true⟩, .floorRequest 3), (⟨2, true⟩, .expired),
      (⟨2, true⟩, .stopButton)]
    1 2 [] ⟨1, false⟩ (by decide)

/-! ## The current floor without restoration -/

/-- Every event operation keeps: as long as no restore-service has been accepted,
the current floor is the ground floor. -/
theorem handle_keeps_ground (fsm : ElevatorFsm) (history : List Entry)
    (drive : ElevatorDriveApi) (e : Event)
    (h : Entry.event .restoreService true ∉ history → fsm.currentFloor_ = GROUND_FLOOR) :
    Entry.event .restoreService true ∉
        (history ++ Entry.event e (fsm.handle drive e).1 ::
          ((fsm.handle drive e).2.calls.drop fsm.calls.length).map Entry.call) →
      (fsm.handle drive e).2.currentFloor_ = GROUND_FLOOR := by
  obtain ⟨s, c, d, cs⟩ := fsm
  intro hnot
  have hcur : c = GROUND_FLOOR := h (fun hm => hnot (List.mem_append_left _ hm))
  cases s <;> cases e
  case Stopped.floorRequest f =>
    simp only [ElevatorFsm.handle, ElevatorFsm.handleFloorRequest, ElevatorFsm.onFloorRequest,
      State.onFloorRequest, Stopped.onFloorRequest]
    split <;> simp [hcur]
  case OutOfService.restoreService =>
    exfalso
    apply hnot
    by_cases hf : drive.isAtFloor = true ∧ drive.getFloor = GROUND_FLOOR <;>
      simp [ElevatorFsm.handle, hf]
  all_goals simp [ElevatorFsm.handle, hcur]

/-- C24: after any sequence of events from construction in which no
restore-service was accepted, the current floor is the ground floor (1);
consequently, if the engine is then in Stopped, a request for floor f puts it in
Moving exactly when f is not the ground floor, and issues drive.goToFloor(f)
exactly when f is not the ground floor. -/
theorem C24_current_floor_stays_ground (seq : List (ElevatorDriveApi × Event))
    (hno : Entry.event .restoreService true ∉ ElevatorFsm.history seq) :
    (ElevatorFsm.new.run seq).currentFloor_ = GROUND_FLOOR ∧
    GROUND_FLOOR = 1 ∧
    ((ElevatorFsm.new.run seq).state_ = .Stopped →
      ∀ (f : Nat) (drive : ElevatorDriveApi),
        (((ElevatorFsm.new.run seq).handleFloorRequest drive f).2.state_ = .Moving
          ↔ f ≠ GROUND_FLOOR) ∧
        (Call.drive_goToFloor f ∈
            (((ElevatorFsm.new.run seq).handleFloorRequest drive f).2.calls.drop
              (ElevatorFsm.new.run seq).calls.length)
          ↔ f ≠ GROUND_FLOOR)) := by
  have hinv := trace_invariant
    (fun fsm history =>
      Entry.event .restoreService true ∉ history → fsm.currentFloor_ = GROUND_FLOOR)
    handle_keeps_ground seq ElevatorFsm.new (ElevatorFsm.new.calls.map Entry.call)
    (by intro _; rfl)
  rw [trace_fst_eq_run] at hinv
  have hcur : (ElevatorFsm.new.run seq).currentFloor_ = GROUND_FLOOR := hinv hno
  refine ⟨hcur, rfl, ?_⟩
  intro hstate f drive
  generalize ElevatorFsm.new.run seq = fsm at hcur hstate ⊢
  obtain ⟨s, c, d, cs⟩ := fsm
  simp only at hcur hstate
  subst hcur hstate
  by_cases hf : GROUND_FLOOR = f
  · subst hf
    simp
  · have hf2 : ¬ f = GROUND_FLOOR := fun h => hf h.symm
    simp [hf, hf2]

/-- Instance: a full trip to floor 3 and back to idle, then a request for floor 2. -/
theorem C24_current_floor_stays_ground_witness :
    (ElevatorFsm.new.run
      [(⟨1, false⟩, .floorRequest 3), (⟨3, true⟩, .arrived), (⟨3, true⟩, .opened),
        (⟨3, true⟩, .closeButton), (⟨3, true⟩, .closed)]).currentFloor_ = GROUND_FLOOR ∧
    GROUND_FLOOR = 1 ∧
    ((ElevatorFsm.new.run
      [(⟨1, false⟩, .floorRequest 3), (⟨3, true⟩, .arrived), (⟨3, true⟩, .opened),
        (⟨3, true⟩, .closeButton), (⟨3, true⟩, .closed)]).state_ = .Stopped →
      ∀ (f : Nat) (drive : ElevatorDriveApi),
        (((ElevatorFsm.new.run
            [(⟨1, false⟩, .floorRequest 3), (⟨3, true⟩, .arrived), (⟨3, true⟩, .opened),
              (⟨3, true⟩, .closeButton), (⟨3, true⟩, .closed)]).handleFloorRequest
              drive f).2.state_ = .Moving
          ↔ f ≠ GROUND_FLOOR) ∧
        (Call.drive_goToFloor f ∈
            (((ElevatorFsm.new.run
              [(⟨1, false⟩, .floorRequest 3), (⟨3, true⟩, .arrived), (⟨3, true⟩, .opened),
                (⟨3, true⟩, .closeButton), (⟨3, true⟩, .closed)]).handleFloorRequest
                drive f).2.calls.drop
              (ElevatorFsm.new.run
                [(⟨1, false⟩, .floorRequest 3), (⟨3, true⟩, .arrived), (⟨3, true⟩, .opened),
                  (⟨3, true⟩, .closeButton), (⟨3, true⟩, .closed)]).calls.length)
          ↔ f ≠ GROUND_FLOOR)) :=
  C24_current_floor_stays_ground
    [(⟨1, false⟩, .floorRequest 3), (⟨3, true⟩, .arrived), (⟨3, true⟩, .opened),
      (⟨3, true⟩, .closeButton), (⟨3, true⟩, .closed)]
    (by decide)

/-! ## Service indication -/

/-- The most recent call satisfying `p` is the last element of the calls
satisfying `p`. -/
theorem lastCallOf_eq_getLast? (p : Call → Bool) (calls : List Call) :
    lastCallOf p calls = (calls.filter p).getLast? := by
  induction calls using List.reverseRecOn with
  | nil => rfl
  | append_singleton l a ih =>
    unfold lastCallOf at ih ⊢
    rw [List.foldl_append, List.filter_append]
    by_cases hp : p a = true
    · simp [hp]
    · simp [hp, ih]

/-- Every event operation keeps: the service indications issued so far start
with ui.inService(), no two consecutive ones are equal, and the last one is
ui.outOfService() exactly in OutOfService. -/
theorem handle_keeps_service_indication (fsm : ElevatorFsm) (drive : ElevatorDriveApi)
    (e : Event)
    (h : (fsm.calls.filter isServiceIndication).head? = some Call.ui_inService ∧
      List.Chain' (fun a b => a ≠ b) (fsm.calls.filter isServiceIndication) ∧
      (fsm.calls.filter isServiceIndication).getLast? =
        some (if fsm.state_ = .OutOfService then Call.ui_outOfService else Call.ui_inService)) :
    ((fsm.handle drive e).2.calls.filter isServiceIndication).head? = some Call.ui_inService ∧
      List.Chain' (fun a b => a ≠ b) ((fsm.handle drive e).2.calls.filter isServiceIndication) ∧
      ((fsm.handle drive e).2.calls.filter isServiceIndication).getLast? =
        some (if (fsm.handle drive e).2.state_ = .OutOfService
          then Call.ui_outOfService else Call.ui_inService) := by
  obtain ⟨s, c, d, cs⟩ := fsm
  obtain ⟨h1, h2, h3⟩ := h
  simp only at h1 h2 h3
  cases s <;> cases e
  case Stopped.floorRequest f =>
    by_cases hc : c = f <;> simp [ElevatorFsm.handle, hc] <;>
      simp_all [isServiceIndication, List.chain'_append]
  case OutOfService.restoreService =>
    by_cases hc : drive.isAtFloor = true ∧ drive.getFloor = GROUND_FLOOR <;>
      simp [ElevatorFsm.handle, hc] <;>
      simp_all [isServiceIndication, List.chain'_append]
  all_goals simp_all [ElevatorFsm.handle, isServiceIndication, List.chain'_append]

/-- C25: in every state reached from construction by any sequence of events,
isInService() is true exactly when the most recent of the commands
ui.inService() / ui.outOfService() issued so far, the constructor's included, is
ui.inService(); and the sequence of these commands starts with ui.inService()
and never repeats the same command twice in a row. -/
theorem C25_service_indication_agrees (seq : List (ElevatorDriveApi × Event)) :
    ((ElevatorFsm.new.run seq).isInService = true ↔
      lastCallOf isServiceIndication (ElevatorFsm.new.run seq).calls
        = some Call.ui_inService) ∧
    ((ElevatorFsm.new.run seq).calls.filter isServiceIndication).head?
      = some Call.ui_inService ∧
    List.Chain' (fun a b => a ≠ b)
      ((ElevatorFsm.new.run seq).calls.filter isServiceIndication) := by
  have hinv := run_invariant
    (fun fsm =>
      (fsm.calls.filter isServiceIndication).head? = some Call.ui_inService ∧
      List.Chain' (fun a b => a ≠ b) (fsm.calls.filter isServiceIndication) ∧
      (fsm.calls.filter isServiceIndication).getLast? =
        some (if fsm.state_ = .OutOfService then Call.ui_outOfService else Call.ui_inService))
    handle_keeps_service_indication seq ElevatorFsm.new
    (by simp [ElevatorFsm.new, isServiceIndication])
  obtain ⟨h1, h2, h3⟩ := hinv
  refine ⟨?_, h1, h2⟩
  rw [lastCallOf_eq_getLast?, h3]
  generalize ElevatorFsm.new.run seq = fsm
  obtain ⟨s, c, d, cs⟩ := fsm
  cases s <;> simp

/-! ## Alarm and drive hold -/

/-- Every event operation keeps: the last alarm command is ui.alarmOn() exactly
in Holding, and the last of drive.stop() / drive.start() is drive.stop() exactly
in Holding. -/
theorem handle_keeps_alarm (fsm : ElevatorFsm) (drive : ElevatorDriveApi) (e : Event)
    (h : (lastCallOf isAlarmCommand fsm.calls = some Call.ui_alarmOn ↔ fsm.state_ = .Holding) ∧
      (lastCallOf isDriveHoldCommand fsm.calls = some Call.drive_stop ↔
        fsm.state_ = .Holding)) :
    (lastCallOf isAlarmCommand (fsm.handle drive e).2.calls = some Call.ui_alarmOn ↔
        (fsm.handle drive e).2.state_ = .Holding) ∧
      (lastCallOf isDriveHoldCommand (fsm.handle drive e).2.calls = some Call.drive_stop ↔
        (fsm.handle drive e).2.state_ = .Holding) := by
  obtain ⟨s, c, d, cs⟩ := fsm
  obtain ⟨h1, h2⟩ := h
  simp only [lastCallOf_eq_getLast?] at h1 h2 ⊢
  cases s <;> cases e
  case Stopped.floorRequest f =>
    by_cases hc : c = f <;> simp [ElevatorFsm.handle, hc] <;>
      simp_all [isAlarmCommand, isDriveHoldCommand]
  case OutOfService.restoreService =>
    by_cases hc : drive.isAtFloor = true ∧ drive.getFloor = GROUND_FLOOR <;>
      simp [ElevatorFsm.handle, hc] <;>
      simp_all [isAlarmCommand, isDriveHoldCommand]
  all_goals
    simp_all [ElevatorFsm.handle, isAlarmCommand, isDriveHoldCommand]

/-- C26: in every state reached from construction by any sequence of events,
the most recent of ui.alarmOn() / ui.alarmOff() is ui.alarmOn() exactly when the
state is Holding, and the most recent of drive.stop() / drive.start() is
drive.stop() exactly when the state is Holding. -/
theorem C26_alarm_exactly_while_holding (seq : List (ElevatorDriveApi × Event)) :
    (lastCallOf isAlarmCommand (ElevatorFsm.new.run seq).calls = some Call.ui_alarmOn ↔
      (ElevatorFsm.new.run seq).state_ = .Holding) ∧
    (lastCallOf isDriveHoldCommand (ElevatorFsm.new.run seq).calls = some Call.drive_stop ↔
      (ElevatorFsm.new.run seq).state_ = .Holding) :=
  run_invariant
    (fun fsm =>
      (lastCallOf isAlarmCommand fsm.calls = some Call.ui_alarmOn ↔ fsm.state_ = .Holding) ∧
      (lastCallOf isDriveHoldCommand fsm.calls = some Call.drive_stop ↔
        fsm.state_ = .Holding))
    handle_keeps_alarm seq ElevatorFsm.new (by decide)

/-! ## Moving with the doors closed -/

/-- C22, as stated, fails: the freshly constructed engine opens the door on a
request for the ground floor, goes out of service on a door fault, and on
restore-service with the drive at floor 2 issues drive.goToFloor(1), at a point
where door.open() has been issued and no doors-closed accepted since. -/
theorem C22_restoration_moves_without_doors_closed :
    ElevatorFsm.history
        [(⟨1, true⟩, .floorRequest 1), (⟨1, true⟩, .doorFault), (⟨2, true⟩, .restoreService)]
      = [Entry.call .ui_inService, Entry.event (.floorRequest 1) true,
          Entry.call (.ui_arrived 1), Entry.call .door_open, Entry.call (.timer_start 5000),
          Entry.event .doorFault true, Entry.call .ui_outOfService,
          Entry.event .restoreService true, Entry.call .ui_inService]
        ++ Entry.call (.drive_goToFloor 1) :: [Entry.call (.timer_start 60000)] ∧
    Entry.call .door_open ∈
      [Entry.call .ui_inService, Entry.event (.floorRequest 1) true,
        Entry.call (.ui_arrived 1), Entry.call .door_open, Entry.call (.timer_start 5000),
        Entry.event .doorFault true, Entry.call .ui_outOfService,
        Entry.event .restoreService true, Entry.call .ui_inService] ∧
    Entry.event .closed true ∉ sinceLastDoorOpen
      [Entry.call .ui_inService, Entry.event (.floorRequest 1) true,
        Entry.call (.ui_arrived 1), Entry.call .door_open, Entry.call (.timer_start 5000),
        Entry.event .doorFault true, Entry.call .ui_outOfService,
        Entry.event .restoreService true, Entry.call .ui_inService] := by
  decide

/-- Every event operation keeps the door invariant together with `movesGuarded`. -/
theorem handle_keeps_movesGuarded (fsm : ElevatorFsm) (history : List Entry)
    (drive : ElevatorDriveApi) (e : Event)
    (h : doorHistoryInvariant fsm history ∧ movesGuarded history) :
    doorHistoryInvariant (fsm.handle drive e).2
        (history ++ Entry.event e (fsm.handle drive e).1 ::
          ((fsm.handle drive e).2.calls.drop fsm.calls.length).map Entry.call) ∧
      movesGuarded
        (history ++ Entry.event e (fsm.handle drive e).1 ::
          ((fsm.handle drive e).2.calls.drop fsm.calls.length).map Entry.call) := by
  obtain ⟨hdoor, hmoves⟩ := h
  refine ⟨handle_keeps_doorHistoryInvariant fsm history drive e hdoor, ?_⟩
  intro pre post f hsplit hop
  rcases List.append_eq_append_iff.mp hsplit with ⟨a, hpre, hnew⟩ | ⟨c, hh, hx⟩
  · subst hpre
    obtain ⟨s, cur, d, cs⟩ := fsm
    cases s <;> cases e
    case Stopped.floorRequest g =>
      by_cases hc : cur = g
      · simp [ElevatorFsm.handle, hc, List.cons_eq_append_iff] at hnew
      · simp [ElevatorFsm.handle, hc, List.cons_eq_append_iff] at hnew
        obtain ⟨a', ha, ha', _⟩ := hnew
        subst ha ha'
        simp [doorHistoryInvariant] at hdoor
        simpa [sinceLastDoorOpen, List.foldl_append] using hdoor
    case OutOfService.restoreService =>
      exfalso
      apply hop
      by_cases hc : drive.isAtFloor = true ∧ drive.getFloor = GROUND_FLOOR
      · simp [ElevatorFsm.handle, hc, List.cons_eq_append_iff] at hnew
      · simp [ElevatorFsm.handle, hc, List.cons_eq_append_iff] at hnew
        obtain ⟨a', ha, a'', ha', ha'', _⟩ := hnew
        subst ha ha' ha''
        simp [lastOperation, List.foldl_append]
    all_goals simp [ElevatorFsm.handle, List.cons_eq_append_iff] at hnew
  · cases c with
    | nil => simp at hx
    | cons y c' =>
      simp only [List.cons_append, List.cons.injEq] at hx
      obtain ⟨hy, _⟩ := hx
      subst hy
      exact hmoves pre c' f hh hop

/-- C22, amended: for every sequence of events applied to a freshly constructed
engine, at every point where drive.goToFloor is issued during an operation other
than restore-service, either door.open() has never been issued or a doors-closed
event has been accepted after the most recent door.open(). -/
theorem C22_moves_guarded_outside_restoration (seq : List (ElevatorDriveApi × Event))
    (pre post : List Entry) (f : Nat)
    (hsplit : ElevatorFsm.history seq = pre ++ Entry.call (.drive_goToFloor f) :: post)
    (hop : lastOperation pre ≠ some Event.restoreService) :
    Entry.call .door_open ∉ pre ∨ Entry.event .closed true ∈ sinceLastDoorOpen pre := by
  have hinv := trace_invariant (fun fsm history => doorHistoryInvariant fsm history ∧
      movesGuarded history)
    handle_keeps_movesGuarded seq ElevatorFsm.new (ElevatorFsm.new.calls.map Entry.call)
    (by
      refine ⟨by simp [doorHistoryInvariant, ElevatorFsm.new], ?_⟩
      intro pre post f hsplit
      simp [ElevatorFsm.new, List.cons_eq_append_iff] at hsplit)
  exact hinv.2 pre post f hsplit hop

/-- Instance: the door is opened at the ground floor and closed again, and the
car is then sent to floor 2; at that point doors-closed has been accepted since
the last door.open(). -/
theorem C22_moves_guarded_outside_restoration_witness :
    Entry.call .door_open ∉
        [Entry.call .ui_inService, Entry.event (.floorRequest 1) true,
          Entry.call (.ui_arrived 1), Entry.call .door_open, Entry.call (.timer_start 5000),
          Entry.event .opened true, Entry.call (.timer_start 10000),
          Entry.event .closeButton true, Entry.call .door_close,
          Entry.call (.timer_start 7000), Entry.event .closed true,
          Entry.event (.floorRequest 2) true] ∨
      Entry.event .closed true ∈ sinceLastDoorOpen
        [Entry.call .ui_inService, Entry.event (.floorRequest 1) true,
          Entry.call (.ui_arrived 1), Entry.call .door_open, Entry.call (.timer_start 5000),
          Entry.event .opened true, Entry.call (.timer_start 10000),
          Entry.event .closeButton true, Entry.call .door_close,
          Entry.call (.timer_start 7000), Entry.event .closed true,
          Entry.event (.floorRequest 2) true] :=
  C22_moves_guarded_outside_restoration
    [(⟨1, true⟩, .floorRequest 1), (⟨1, true⟩, .opened), (⟨1, true⟩, .closeButton),
      (⟨1, true⟩, .closed), (⟨1, true⟩, .floorRequest 2)]
    [Entry.call .ui_inService, Entry.event (.floorRequest 1) true,
      Entry.call (.ui_arrived 1), Entry.call .door_open, Entry.call (.timer_start 5000),
      Entry.event .opened true, Entry.call (.timer_start 10000),
      Entry.event .closeButton true, Entry.call .door_close,
      Entry.call (.timer_start 7000), Entry.event .closed true,
      Entry.event (.floorRequest 2) true]
    [Entry.call (.timer_start 60000)] 2 (by decide) (by decide)

end Elevator
